import Mathlib

/-!
Verification development for the RTX 4090 concurrent-stream monitoring and
analysis tools (`monitor-concurrent.py` and `analyze-results.py`).

The Python sources are shallowly embedded: each relevant Python function
becomes a Lean definition over explicit data; external effects (the
`nvidia-smi` query, the process table, the filesystem) are passed in as
explicit values (`Option` marks a query or file that failed or is absent,
matching the scripts' `try`/`except` handling).  Real numbers produced by
Python float arithmetic are modelled by `ℚ`.
-/

/-! ## Basic character-list utilities

Strings are modelled as `List Char` (the `data` of a `String`).  These
helpers model the Python primitives used by the two scripts: `int(...)`,
`float(...)`, `str.lower`, `str.count`, substring membership, and the two
regular-expression scans.
-/

/-- Digit test on characters (ASCII `0`-`9`), as used by the regex classes
`[0-9]` and `[0-9.]`. -/
def isDigitChar (c : Char) : Bool := c.isDigit

/-- Characters matched by the regex class whitespace marker: space, tab,
newline, carriage return, vertical tab and form feed. -/
def isSpaceChar (c : Char) : Bool :=
  c == ' ' || c == '\t' || c == '\n' || c == '\r' || c == Char.ofNat 11 || c == Char.ofNat 12

/-- Numeric value of a decimal digit character. -/
def digitVal (c : Char) : ℕ := c.toNat - 48

/-- Value of a digit run, most significant digit first (`0` for an empty run,
matching how the fractional part of a float literal is accumulated). -/
def digitsToNat (l : List Char) : ℕ :=
  l.foldl (fun acc c => acc * 10 + digitVal c) 0

/-- Python `int(s)` on a stripped non-negative token: some value when the
token is a non-empty digit string, `none` when `int` would raise. -/
def parseNat (s : List Char) : Option ℕ :=
  if s.isEmpty then none
  else if s.all isDigitChar then some (digitsToNat s)
  else none

/-- Python `int(s)` on a stripped token with an optional leading minus. -/
def parseInt (s : List Char) : Option ℤ :=
  match s with
  | '-' :: t => (parseNat t).map (fun n => -(n : ℤ))
  | _ => (parseNat s).map (fun n => (n : ℤ))

/-- Python `float(s)` on a stripped unsigned token: digits with at most one
dot, at least one digit overall; `none` when `float` would raise. -/
def parseFloatUnsigned (s : List Char) : Option ℚ :=
  match s.splitOn '.' with
  | [ip] => (parseNat ip).map (fun n => (n : ℚ))
  | [ip, fp] =>
    if ip.isEmpty && fp.isEmpty then none
    else if ip.all isDigitChar && fp.all isDigitChar then
      some ((digitsToNat ip : ℚ) + (digitsToNat fp : ℚ) / ((10 : ℚ) ^ fp.length))
    else none
  | _ => none

/-- Python `float(s)` with an optional leading minus. -/
def parseFloatQ (s : List Char) : Option ℚ :=
  match s with
  | '-' :: t => (parseFloatUnsigned t).map (fun q => -q)
  | _ => parseFloatUnsigned s

/-- Python `str.lower` (ASCII). -/
def toLowerList (l : List Char) : List Char := l.map Char.toLower

/-- Longest prefix of `l` whose characters satisfy `p`, together with the
rest of the list. -/
def takeRun (p : Char → Bool) : List Char → List Char × List Char
  | [] => ([], [])
  | c :: t =>
    if p c then
      let r := takeRun p t
      (c :: r.1, r.2)
    else ([], c :: t)

/-- Python `sub in s` (substring membership). -/
def containsSub (pat : List Char) : List Char → Bool
  | [] => pat.isEmpty
  | c :: cs => pat.isPrefixOf (c :: cs) || containsSub pat cs

/-- One step of Python `str.count`: non-overlapping occurrences, scanning
left to right; `fuel` bounds the recursion by the length of the text. -/
def countOccFuel (pat : List Char) : ℕ → List Char → ℕ
  | 0, _ => 0
  | _, [] => 0
  | fuel + 1, c :: cs =>
    if pat.isPrefixOf (c :: cs) then 1 + countOccFuel pat fuel ((c :: cs).drop pat.length)
    else countOccFuel pat fuel cs

/-- Python `str.count pat` for a non-empty pattern. -/
def countOcc (pat text : List Char) : ℕ := countOccFuel pat text.length text

/-- `max` over a list with a default for the empty list, modelling the
Python idiom `max(l) if l else d`. -/
def listMax {α : Type} [LinearOrder α] (d : α) : List α → α
  | [] => d
  | a :: t => t.foldl max a

/-- `min` over a list with a default for the empty list. -/
def listMin {α : Type} [LinearOrder α] (d : α) : List α → α
  | [] => d
  | a :: t => t.foldl min a

/-- Arithmetic mean `sum(l)/len(l)` over `ℚ` (the scripts only apply it to
non-empty lists). -/
def meanQ (l : List ℚ) : ℚ := l.sum / (l.length : ℚ)

/-! ## `monitor-concurrent.py`: hardware-counter query (`get_gpu_info`)

`nvidia-smi` returns one CSV line with eleven fields; the script strips each
field and parses it.  The response is modelled as the eleven already-stripped
fields.  Any parse that would raise (including the unguarded `int(...)` calls
and the division when `memory_total_mb` is zero) makes the whole query
return `None`, which the script's `except` clause produces.
-/

/-- The eleven stripped fields of one `nvidia-smi --query-gpu` response line. -/
structure GpuQueryResponse where
  v_timestamp : List Char
  v_name : List Char
  v_memory_total : List Char
  v_memory_used : List Char
  v_memory_free : List Char
  v_util_gpu : List Char
  v_util_memory : List Char
  v_temperature : List Char
  v_power : List Char
  v_clock_gpu : List Char
  v_clock_memory : List Char
deriving DecidableEq

/-- The driver's not-applicable marker. -/
def naChars : List Char := "[N/A]".data

/-- A guarded float field: `float(v) if v != '[N/A]' else 0`. -/
def naFloat (s : List Char) : Option ℚ :=
  if s = naChars then some 0 else parseFloatQ s

/-- A guarded int field: `int(v) if v != '[N/A]' else 0`. -/
def naInt (s : List Char) : Option ℤ :=
  if s = naChars then some 0 else parseInt s

/-- The `gpu_info` dictionary built by `get_gpu_info`. -/
structure GpuInfo where
  timestamp : List Char
  gpu_name : List Char
  memory_total_mb : ℤ
  memory_used_mb : ℤ
  memory_free_mb : ℤ
  gpu_utilization : ℚ
  memory_utilization : ℚ
  temperature_c : ℤ
  power_draw_w : ℚ
  gpu_clock_mhz : ℤ
  memory_clock_mhz : ℤ
  memory_percent : ℚ
deriving DecidableEq

/-- `ConcurrentStreamMonitor.get_gpu_info`: parse the eleven response fields;
the three memory fields use a bare `int(...)`, the remaining numeric fields
are `[N/A]`-guarded with default `0`; `memory_percent` is derived, and a zero
`memory_total_mb` raises (hence `none`).  Any failure yields `None`. -/
def get_gpu_info (r : GpuQueryResponse) : Option GpuInfo :=
  match parseInt r.v_memory_total, parseInt r.v_memory_used, parseInt r.v_memory_free,
      naFloat r.v_util_gpu, naFloat r.v_util_memory, naInt r.v_temperature,
      naFloat r.v_power, naInt r.v_clock_gpu, naInt r.v_clock_memory with
  | some mt, some mu, some mf, some ug, some um, some tc, some pw, some cg, some cm =>
    if mt = 0 then none
    else
      some { timestamp := r.v_timestamp, gpu_name := r.v_name,
             memory_total_mb := mt, memory_used_mb := mu, memory_free_mb := mf,
             gpu_utilization := ug, memory_utilization := um, temperature_c := tc,
             power_draw_w := pw, gpu_clock_mhz := cg, memory_clock_mhz := cm,
             memory_percent := (mu : ℚ) / (mt : ℚ) * 100 }
  | _, _, _, _, _, _, _, _, _ => none

/-! ## Encoder statistics (`get_nvenc_encoder_stats`) -/

/-- The three stripped fields of one encoder-stats query response (present
only when the query exited with status 0 and non-empty output). -/
structure EncoderQueryResponse where
  v_sessions : List Char
  v_fps : List Char
  v_latency : List Char
deriving DecidableEq

/-- The encoder-stats dictionary. -/
structure EncoderStats where
  encoder_sessions : ℤ
  encoder_avg_fps : ℚ
  encoder_avg_latency_ms : ℚ
deriving DecidableEq

/-- Parse of the three `[N/A]`-guarded encoder fields; `none` models the
exception swallowed by the bare `except`. -/
def parseEncoderStats (r : EncoderQueryResponse) : Option EncoderStats :=
  match naInt r.v_sessions, naFloat r.v_fps, naFloat r.v_latency with
  | some s, some f, some l => some ⟨s, f, l⟩
  | _, _, _ => none

/-- `ConcurrentStreamMonitor.get_nvenc_encoder_stats`: a failed query, empty
output, or a parse exception all fall through to the all-zero dictionary. -/
def get_nvenc_encoder_stats (resp : Option EncoderQueryResponse) : EncoderStats :=
  match resp with
  | some r => (parseEncoderStats r).getD ⟨0, 0, 0⟩
  | none => ⟨0, 0, 0⟩

/-! ## Workload processes and attribution (`detect_nvenc_utilization`) -/

/-- One relevant FFmpeg process as recorded by `get_ffmpeg_processes`
(already filtered to `h264_nvenc` invocations; `input_streams` is the
count of the input-designator token in its command line). -/
structure FfmpegProcess where
  pid : ℕ
  input_streams : ℕ
  cpu_percent : ℚ
  memory_mb : ℚ
  runtime_seconds : ℚ
deriving DecidableEq

/-- The per-tick attribution record. -/
structure Attribution where
  nvenc1_estimated_load : ℕ
  nvenc2_estimated_load : ℕ
  total_concurrent_streams : ℕ
deriving DecidableEq

/-- Insert a process into a pid-sorted list (the comparison used by
`sorted(..., key=lambda x: x['pid'])`). -/
def insertByPid (p : FfmpegProcess) : List FfmpegProcess → List FfmpegProcess
  | [] => [p]
  | q :: t => if p.pid ≤ q.pid then p :: q :: t else q :: insertByPid p t

/-- `sorted(ffmpeg_processes, key=lambda x: x['pid'])`. -/
def sortByPid : List FfmpegProcess → List FfmpegProcess
  | [] => []
  | p :: t => insertByPid p (sortByPid t)

/-- `ConcurrentStreamMonitor.detect_nvenc_utilization`: an empty list yields
zeros; otherwise the processes are sorted by pid, the total is the sum of
all input-stream counts, a single process is assigned to NVENC1, and with
two or more the first two sorted processes go to NVENC1 and NVENC2. -/
def detect_nvenc_utilization (procs : List FfmpegProcess) : Attribution :=
  match procs with
  | [] => ⟨0, 0, 0⟩
  | _ :: _ =>
    match sortByPid procs, ((sortByPid procs).map FfmpegProcess.input_streams).sum with
    | [], _ => ⟨0, 0, 0⟩
    | [p], total => ⟨p.input_streams, 0, total⟩
    | p :: q :: _, total => ⟨p.input_streams, q.input_streams, total⟩

/-! ## Output-artifact scan (`get_hls_output_stats`) -/

/-- One path found under the output directory by `rglob` (its base name,
whether it is a regular file, and its size in bytes). -/
structure HlsEntry where
  name : List Char
  isFile : Bool
  size : ℕ
deriving DecidableEq

/-- The statistics dictionary returned by `get_hls_output_stats`.  When the
output directory does not exist the script returns an early dictionary
without the `avg_segments_per_playlist` key, modelled by `none`. -/
structure HlsStats where
  total_playlists : ℕ
  total_segments : ℕ
  total_size_mb : ℚ
  avg_segments_per_playlist : Option ℚ
deriving DecidableEq

/-- `ConcurrentStreamMonitor.get_hls_output_stats`: `none` models a missing
output directory; otherwise playlists and segments are counted by file-name
suffix, sizes are summed over regular files, and the average is a guarded
division defaulting to `0` when there is no playlist. -/
def get_hls_output_stats (d : Option (List HlsEntry)) : HlsStats :=
  match d with
  | none => ⟨0, 0, 0, none⟩
  | some files =>
    let pc := (files.filter (fun f => (".m3u8".data).isSuffixOf f.name)).length
    let sc := (files.filter (fun f => (".ts".data).isSuffixOf f.name)).length
    let sz := ((files.filter (fun f => f.isFile)).map HlsEntry.size).sum
    ⟨pc, sc, (sz : ℚ) / 1024 / 1024,
      some (if 0 < pc then (sc : ℚ) / (pc : ℚ) else 0)⟩

/-! ## Tick pacing of the monitoring loop (`monitor`)

One loop iteration collects a data point (taking some wall-clock `work`
time), prints the status, checks the duration limit, and then calls
`time.sleep(self.interval)` unconditionally.  Given the collection durations
of the successive ticks, the loop therefore produces these tick start
times. -/

/-- Tick start times of the monitoring loop as written: each next tick
starts a full `work + interval` after the previous one, because the loop
sleeps the whole interval after the collection work. -/
def monitorTickStarts (interval : ℚ) : ℚ → List ℚ → List ℚ
  | s, [] => [s]
  | s, w :: ws => s :: monitorTickStarts interval (s + w + interval) ws

/-- Tick start times under the pacing described by the specification text:
sleep only the residual `interval - work` (no sleep when the work overran
the interval), so consecutive starts are `max work interval` apart.  This
definition follows the specification's words and exists only to be compared
against `monitorTickStarts`. -/
def residualTickStarts (interval : ℚ) : ℚ → List ℚ → List ℚ
  | s, [] => [s]
  | s, w :: ws => s :: residualTickStarts interval (s + max w interval) ws

/-! ## One tick's data point (`collect_data`) and persistence

The per-tick dictionary is modelled as a structure; a `get_*` sub-query that
failed leaves its keys absent, modelled by `Option`.  The two list-valued
keys of the system snapshot (per-core usage, load averages) are excluded
from the tabular output by the flattening step and are not referenced by
any analysis, so the model keeps only the scalar system fields.
-/

/-- One GPU compute process from `get_compute_processes`. -/
structure ComputeProcess where
  pid : ℕ
  process_name : List Char
  gpu_memory_mb : ℕ
deriving DecidableEq

/-- Scalar fields of the host-resource snapshot from `get_system_info`. -/
structure SystemInfo where
  cpu_percent_total : ℚ
  cpu_cores_count : ℕ
  cpu_max_core : ℚ
  memory_total_gb : ℚ
  memory_used_gb : ℚ
  memory_available_gb : ℚ
  memory_percent : ℚ
deriving DecidableEq

/-- One monitoring tick's collected data (the Sample). -/
structure DataPoint where
  unix_timestamp : ℚ
  gpu : Option GpuInfo
  encoder : EncoderStats
  compute_processes : List ComputeProcess
  ffmpeg_processes : List FfmpegProcess
  attribution : Attribution
  system : Option SystemInfo
  hls : HlsStats
deriving DecidableEq

/-- `ConcurrentStreamMonitor.collect_data`: assemble one tick's data point
from the sub-queries; a failed GPU query leaves the GPU keys absent, and the
attribution is recomputed from the observed FFmpeg processes. -/
def collect_data (now : ℚ) (gpuResp : Option GpuQueryResponse)
    (encResp : Option EncoderQueryResponse) (computePs : List ComputeProcess)
    (ffmpegPs : List FfmpegProcess) (sys : Option SystemInfo)
    (outDir : Option (List HlsEntry)) : DataPoint :=
  { unix_timestamp := now
  , gpu := gpuResp.bind get_gpu_info
  , encoder := get_nvenc_encoder_stats encResp
  , compute_processes := computePs
  , ffmpeg_processes := ffmpegPs
  , attribution := detect_nvenc_utilization ffmpegPs
  , system := sys
  , hls := get_hls_output_stats outDir }

/-- One flattened CSV row: the scalar keys of a data point plus the derived
concurrent-stream columns added by `save_data_csv`. -/
structure FlatRow where
  unix_timestamp : ℚ
  gpu : Option GpuInfo
  encoder : EncoderStats
  attribution : Attribution
  system : Option SystemInfo
  hls : HlsStats
  total_streams : ℕ
  nvenc1_load : ℕ
  nvenc2_load : ℕ
  ffmpeg_process_count : ℕ
  compute_process_count : ℕ
deriving DecidableEq

/-- The flattening applied to each data point inside `save_data_csv`:
list- and dict-valued keys are dropped, and the derived columns are added. -/
def flattenPoint (p : DataPoint) : FlatRow :=
  { unix_timestamp := p.unix_timestamp
  , gpu := p.gpu
  , encoder := p.encoder
  , attribution := p.attribution
  , system := p.system
  , hls := p.hls
  , total_streams := p.attribution.total_concurrent_streams
  , nvenc1_load := p.attribution.nvenc1_estimated_load
  , nvenc2_load := p.attribution.nvenc2_estimated_load
  , ffmpeg_process_count := p.ffmpeg_processes.length
  , compute_process_count := p.compute_processes.length }

/-- `ConcurrentStreamMonitor.save_data_csv`: returns the rows written to the
CSV file, or `none` when the early `if not self.data_points: return` fires
and no file is written. -/
def save_data_csv (pts : List DataPoint) : Option (List FlatRow) :=
  match pts with
  | [] => none
  | _ :: _ => some (pts.map flattenPoint)

/-- `ConcurrentStreamMonitor.save_data_json`: `json.dump` always writes the
structured list, so the written document (modelled by the list itself) is
produced even for an empty run, where it is the empty array. -/
def save_data_json (pts : List DataPoint) : Option (List DataPoint) :=
  some pts

/-! ## Concurrent-performance summary (`analyze_concurrent_performance`) -/

/-- The `gpu_utilization` section of the monitor's analysis. -/
structure UtilAnalysis where
  avg : ℚ
  max : ℚ
  min : ℚ
  stable_above_50 : ℚ
deriving DecidableEq

/-- The `memory_usage` section of the monitor's analysis. -/
structure MemAnalysis where
  avg_percent : ℚ
  max_percent : ℚ
  max_mb : ℤ
deriving DecidableEq

/-- The `concurrent_streams` section of the monitor's analysis. -/
structure StreamAnalysis where
  max_total_streams : ℕ
  avg_total_streams : ℚ
  max_nvenc1_load : ℕ
  max_nvenc2_load : ℕ
  dual_nvenc_utilization : ℚ
deriving DecidableEq

/-- The `thermal_power` section of the monitor's analysis. -/
structure ThermalPowerAnalysis where
  max_temp_c : ℚ
  avg_temp_c : ℚ
  max_power_w : ℚ
  avg_power_w : ℚ
deriving DecidableEq

/-- The `output_generation` section of the monitor's analysis. -/
structure OutputGeneration where
  max_playlists : ℕ
  max_segments : ℕ
  final_output_size_mb : ℚ
deriving DecidableEq

/-- The monitor's whole analysis dictionary. -/
structure PerfAnalysis where
  gpu_utilization : UtilAnalysis
  memory_usage : MemAnalysis
  concurrent_streams : StreamAnalysis
  thermal_power : ThermalPowerAnalysis
  output_generation : OutputGeneration
deriving DecidableEq

/-- `ConcurrentStreamMonitor.analyze_concurrent_performance`: `none` models
the empty dictionary returned for an empty run; otherwise every section is
computed from the collected points, with each missing per-point key
defaulting to `0` exactly as the `p.get(key, 0)` calls do. -/
def analyze_concurrent_performance (pts : List DataPoint) : Option PerfAnalysis :=
  match pts with
  | [] => none
  | _ :: _ =>
    let n : ℚ := (pts.length : ℚ)
    let gpu_utils := pts.map (fun p => (p.gpu.map GpuInfo.gpu_utilization).getD 0)
    let mem_percents := pts.map (fun p => (p.gpu.map GpuInfo.memory_percent).getD 0)
    let stream_counts := pts.map (fun p => p.attribution.total_concurrent_streams)
    let nv1 := pts.map (fun p => p.attribution.nvenc1_estimated_load)
    let nv2 := pts.map (fun p => p.attribution.nvenc2_estimated_load)
    let temps := pts.map (fun p => (((p.gpu.map GpuInfo.temperature_c).getD 0 : ℤ) : ℚ))
    let powers := pts.map (fun p => (p.gpu.map GpuInfo.power_draw_w).getD 0)
    some
      { gpu_utilization :=
          { avg := gpu_utils.sum / n
          , max := listMax 0 gpu_utils
          , min := listMin 0 gpu_utils
          , stable_above_50 := ((gpu_utils.countP (fun x => decide (50 < x))) : ℚ) / n }
      , memory_usage :=
          { avg_percent := mem_percents.sum / n
          , max_percent := listMax 0 mem_percents
          , max_mb := listMax 0 (pts.map (fun p => (p.gpu.map GpuInfo.memory_used_mb).getD 0)) }
      , concurrent_streams :=
          { max_total_streams := listMax 0 stream_counts
          , avg_total_streams := (stream_counts.sum : ℚ) / n
          , max_nvenc1_load := listMax 0 nv1
          , max_nvenc2_load := listMax 0 nv2
          , dual_nvenc_utilization :=
              ((pts.countP (fun p =>
                decide (0 < p.attribution.nvenc1_estimated_load ∧
                        0 < p.attribution.nvenc2_estimated_load))) : ℚ) / n }
      , thermal_power :=
          { max_temp_c := listMax 0 temps
          , avg_temp_c := temps.sum / n
          , max_power_w := listMax 0 powers
          , avg_power_w := powers.sum / n }
      , output_generation :=
          { max_playlists := listMax 0 (pts.map (fun p => p.hls.total_playlists))
          , max_segments := listMax 0 (pts.map (fun p => p.hls.total_segments))
          , final_output_size_mb :=
              ((pts.getLast?).map (fun p => p.hls.total_size_mb)).getD 0 } }

/-- `ConcurrentStreamMonitor.save_analysis`: the analysis file is written
exactly when the analysis dictionary is non-empty, i.e. when the run has at
least one data point; the written document is the analysis itself. -/
def save_analysis (pts : List DataPoint) : Option PerfAnalysis :=
  analyze_concurrent_performance pts

/-! ## `analyze-results.py`: GPU-performance aggregation

The monitoring CSV is modelled as an optional frame of optional numeric
columns (`none` for a missing file or unreadable CSV, and per column for a
missing column, matching the `if col in df` guards).  The `std` entry of the
`gpu_utilization` section is a floating-point sample standard deviation (an
irrational square root); it is not referenced by any downstream computation
(only printed), and is left out of the model.
-/

/-- Numeric columns of the monitoring CSV that the analyzer reads. -/
structure CsvFrame where
  gpu_utilization : Option (List ℚ)
  memory_used_mb : Option (List ℚ)
  memory_percent : Option (List ℚ)
  temperature_c : Option (List ℚ)
  power_draw_w : Option (List ℚ)
  total_concurrent_streams : Option (List ℚ)
  nvenc1_estimated_load : Option (List ℚ)
  nvenc2_estimated_load : Option (List ℚ)
deriving DecidableEq

/-- The `gpu_utilization` section of the analyzer's GPU-performance dict. -/
structure UtilSection where
  avg : ℚ
  max : ℚ
  min : ℚ
deriving DecidableEq

/-- The `memory_usage` section. -/
structure MemSection where
  avg_mb : ℚ
  max_mb : ℚ
  avg_percent : ℚ
  max_percent : ℚ
deriving DecidableEq

/-- The `thermal` section. -/
structure ThermalSection where
  avg_temp : ℚ
  max_temp : ℚ
  avg_power : ℚ
  max_power : ℚ
deriving DecidableEq

/-- The `concurrent_streams` section (present only when the CSV has the
`total_concurrent_streams` column). -/
structure StreamSection where
  max_total : ℚ
  avg_total : ℚ
  max_nvenc1 : ℚ
  max_nvenc2 : ℚ
deriving DecidableEq

/-- The analyzer's `gpu_performance` dictionary.  All four sub-keys absent
(`⟨none, none, none, none⟩`) models the empty dict `{}` returned for a
missing or unreadable CSV. -/
structure GpuPerformance where
  gpu_utilization : Option UtilSection
  memory_usage : Option MemSection
  thermal : Option ThermalSection
  concurrent_streams : Option StreamSection
deriving DecidableEq

/-- `ResultsAnalyzer.analyze_gpu_performance`: the empty dict for a missing
CSV; otherwise per-column aggregates with every missing column defaulting
to `0`, and the `concurrent_streams` section added only when the stream
column is present. -/
def analyze_gpu_performance (df : Option CsvFrame) : GpuPerformance :=
  match df with
  | none => ⟨none, none, none, none⟩
  | some f =>
    { gpu_utilization := some
        { avg := (f.gpu_utilization.map meanQ).getD 0
        , max := (f.gpu_utilization.map (listMax 0)).getD 0
        , min := (f.gpu_utilization.map (listMin 0)).getD 0 }
    , memory_usage := some
        { avg_mb := (f.memory_used_mb.map meanQ).getD 0
        , max_mb := (f.memory_used_mb.map (listMax 0)).getD 0
        , avg_percent := (f.memory_percent.map meanQ).getD 0
        , max_percent := (f.memory_percent.map (listMax 0)).getD 0 }
    , thermal := some
        { avg_temp := (f.temperature_c.map meanQ).getD 0
        , max_temp := (f.temperature_c.map (listMax 0)).getD 0
        , avg_power := (f.power_draw_w.map meanQ).getD 0
        , max_power := (f.power_draw_w.map (listMax 0)).getD 0 }
    , concurrent_streams := f.total_concurrent_streams.map (fun col =>
        { max_total := listMax 0 col
        , avg_total := meanQ col
        , max_nvenc1 := (f.nvenc1_estimated_load.map (listMax 0)).getD 0
        , max_nvenc2 := (f.nvenc2_estimated_load.map (listMax 0)).getD 0 }) }

/-! ## Output-quality analysis (`analyze_output_quality`) -/

/-- One entry of an engine's output directory as seen by `iterdir`: its base
name, whether it is a directory, the size of its `playlist.m3u8` if that
file exists, and the sizes of all regular files under it (`rglob`). -/
structure StreamEntry where
  name : List Char
  isDir : Bool
  playlistSize : Option ℕ
  fileSizes : List ℕ
deriving DecidableEq

/-- One engine's output-quality record. -/
structure EngineQuality where
  successful_streams : ℕ
  failed_streams : ℕ
  total_size_mb : ℚ
  success_rate : ℚ
deriving DecidableEq

/-- The loop body of `analyze_output_quality` for one directory entry:
only directories whose name starts with `stream` are considered; one with a
non-empty playlist counts as successful and contributes its tree size,
any other counts as failed. -/
def streamAccum (acc : ℕ × ℕ × ℚ) (e : StreamEntry) : ℕ × ℕ × ℚ :=
  if e.isDir && (("stream".data).isPrefixOf e.name) then
    match e.playlistSize with
    | some sz =>
      if 0 < sz then (acc.1 + 1, acc.2.1, acc.2.2 + (e.fileSizes.sum : ℚ) / (1024 * 1024))
      else (acc.1, acc.2.1 + 1, acc.2.2)
    | none => (acc.1, acc.2.1 + 1, acc.2.2)
  else acc

/-- Success/failure/size counts over one engine's directory listing. -/
def countStreams (es : List StreamEntry) : ℕ × ℕ × ℚ :=
  es.foldl streamAccum (0, 0, 0)

/-- One engine's half of `ResultsAnalyzer.analyze_output_quality`: counts
stay zero for a missing directory, and the success rate is
`successful/(successful+failed) * 100`, defined as `0` when the engine
produced no streams at all. -/
def analyzeEngineDir (d : Option (List StreamEntry)) : EngineQuality :=
  let c := match d with
    | none => ((0 : ℕ), (0 : ℕ), (0 : ℚ))
    | some es => countStreams es
  { successful_streams := c.1
  , failed_streams := c.2.1
  , total_size_mb := c.2.2
  , success_rate :=
      if 0 < c.1 + c.2.1 then (c.1 : ℚ) / ((c.1 + c.2.1 : ℕ) : ℚ) * 100 else 0 }

/-- The analyzer's `output_quality` dictionary. -/
structure OutputQuality where
  nvenc1 : EngineQuality
  nvenc2 : EngineQuality
deriving DecidableEq

/-- `ResultsAnalyzer.analyze_output_quality` over both engine directories. -/
def analyze_output_quality (d1 d2 : Option (List StreamEntry)) : OutputQuality :=
  ⟨analyzeEngineDir d1, analyzeEngineDir d2⟩

/-! ## FFmpeg-log scans (`_extract_encoding_speed`, `_count_dropped_frames`)

The two regex scans walk the log text left to right, taking non-overlapping
matches and resuming after each match, exactly as `re.findall` does.  For
both patterns the token class does not contain the character that must
follow it, so the maximal-run reading is exactly the regex semantics.  The
recursion is bounded by the text length (every step consumes at least one
character). -/

/-- Try to match `drop=\s*([0-9]+)` at the head of `l`; on success return
the numeric group and the rest of the text after the match. -/
def tryDropAt (l : List Char) : Option (ℕ × List Char) :=
  if ("drop=".data).isPrefixOf l then
    match takeRun isDigitChar ((l.drop 5).dropWhile isSpaceChar) with
    | ([], _) => none
    | (d :: ds, rest) => some (digitsToNat (d :: ds), rest)
  else none

/-- Fuelled scan for all `drop=` matches. -/
def dropMatchesFuel : ℕ → List Char → List ℕ
  | 0, _ => []
  | _, [] => []
  | fuel + 1, c :: cs =>
    match tryDropAt (c :: cs) with
    | some (n, rest) => n :: dropMatchesFuel fuel rest
    | none => dropMatchesFuel fuel cs

/-- `re.findall(r'drop=\s*([0-9]+)', text)`, as numbers. -/
def dropMatches (l : List Char) : List ℕ := dropMatchesFuel l.length l

/-- `ResultsAnalyzer._count_dropped_frames`: the maximum matched value, `0`
when the log has no `drop=` marker. -/
def count_dropped_frames (l : List Char) : ℕ :=
  match dropMatches l with
  | [] => 0
  | m :: ms => ms.foldl Nat.max m

/-- Try to match `speed=\s*([0-9.]+)x` at the head of `l`; on success return
the token group and the rest of the text after the `x`. -/
def trySpeedAt (l : List Char) : Option (List Char × List Char) :=
  if ("speed=".data).isPrefixOf l then
    match takeRun (fun c => isDigitChar c || c == '.') ((l.drop 6).dropWhile isSpaceChar) with
    | ([], _) => none
    | (d :: ds, rest) =>
      match rest with
      | 'x' :: r2 => some (d :: ds, r2)
      | _ => none
  else none

/-- Fuelled scan for all `speed=` matches. -/
def speedMatchesFuel : ℕ → List Char → List (List Char)
  | 0, _ => []
  | _, [] => []
  | fuel + 1, c :: cs =>
    match trySpeedAt (c :: cs) with
    | some (tok, rest) => tok :: speedMatchesFuel fuel rest
    | none => speedMatchesFuel fuel cs

/-- `re.findall(r'speed=\s*([0-9.]+)x', text)`, as token strings. -/
def speedMatches (l : List Char) : List (List Char) := speedMatchesFuel l.length l

/-- `float(x)` over every matched token; `none` when any token (such as one
with two dots) would make `float` raise. -/
def parseAllFloats : List (List Char) → Option (List ℚ)
  | [] => some []
  | s :: t =>
    match parseFloatQ s, parseAllFloats t with
    | some q, some r => some (q :: r)
    | _, _ => none

/-- The speed statistics extracted from one log. -/
structure SpeedStats where
  avg_speed : ℚ
  max_speed : ℚ
  min_speed : ℚ
deriving DecidableEq

/-- `ResultsAnalyzer._extract_encoding_speed`: all-zero statistics when the
log has no `speed=` marker, else mean/max/min of the parsed speeds; `none`
models the `ValueError` that an unparsable token raises (it propagates to
the caller's `except`). -/
def extract_encoding_speed (l : List Char) : Option SpeedStats :=
  match speedMatches l with
  | [] => some ⟨0, 0, 0⟩
  | m :: mt =>
    (parseAllFloats (m :: mt)).map (fun ss => ⟨meanQ ss, listMax 0 ss, listMin 0 ss⟩)

/-! ## Per-engine log analysis (`analyze_ffmpeg_logs`) -/

/-- An encoder log file: its text and its size in bytes. -/
structure LogFile where
  content : List Char
  size : ℕ
deriving DecidableEq

/-- One engine's log-analysis record. -/
structure EngineLogStats where
  log_size_kb : ℚ
  has_errors : Bool
  encoding_speed : SpeedStats
  dropped_frames : ℕ
  warnings : ℕ
deriving DecidableEq

/-- Result of analysing one engine's log: the statistics record, or the
`error` record produced when an exception was caught while analysing. -/
inductive EngineLogEntry where
  | stats : EngineLogStats → EngineLogEntry
  | failed : EngineLogEntry
deriving DecidableEq

/-- Analysis of one existing log file, mirroring the per-log `try` block of
`analyze_ffmpeg_logs`. -/
def analyzeOneLog (lf : LogFile) : EngineLogEntry :=
  match extract_encoding_speed lf.content with
  | none => .failed
  | some sp =>
    .stats
      { log_size_kb := (lf.size : ℚ) / 1024
      , has_errors :=
          containsSub ("error".data) (toLowerList lf.content) ||
          containsSub ("failed".data) (toLowerList lf.content)
      , encoding_speed := sp
      , dropped_frames := count_dropped_frames lf.content
      , warnings := countOcc ("warning".data) (toLowerList lf.content) }

/-- The analyzer's `ffmpeg_analysis` dictionary; `none` per engine models
the empty dict left in place when that log file is absent. -/
structure FfmpegAnalysis where
  nvenc1 : Option EngineLogEntry
  nvenc2 : Option EngineLogEntry
deriving DecidableEq

/-- `ResultsAnalyzer.analyze_ffmpeg_logs` over both optional log files. -/
def analyze_ffmpeg_logs (l1 l2 : Option LogFile) : FfmpegAnalysis :=
  ⟨l1.map analyzeOneLog, l2.map analyzeOneLog⟩

/-! ## The comprehensive report and the performance grade -/

/-- The analysis-results dictionary assembled by
`generate_comprehensive_report`.  `test_timestamp` records `datetime.now()`
at analysis time; every section key is always set (possibly to an empty
section), which is what the key-presence tests downstream observe. -/
structure AnalysisReport where
  test_timestamp : ℚ
  gpu_performance : Option GpuPerformance
  output_quality : Option OutputQuality
  ffmpeg_analysis : Option FfmpegAnalysis
deriving DecidableEq

/-- `ResultsAnalyzer.generate_comprehensive_report`: run the three analyses
over the persisted inputs and assemble the report, stamping it with the
current wall-clock time. -/
def generate_comprehensive_report (now : ℚ) (csv : Option CsvFrame)
    (out1 out2 : Option (List StreamEntry)) (log1 log2 : Option LogFile) :
    AnalysisReport :=
  { test_timestamp := now
  , gpu_performance := some (analyze_gpu_performance csv)
  , output_quality := some (analyze_output_quality out1 out2)
  , ffmpeg_analysis := some (analyze_ffmpeg_logs log1 log2) }

/-- GPU-utilization band points (of max 25). -/
def utilPoints (u : ℚ) : ℕ :=
  if 80 ≤ u then 25 else if 60 ≤ u then 20 else if 40 ≤ u then 15
  else if 20 ≤ u then 10 else 0

/-- Output-success band points (of max 35). -/
def successPoints (s : ℚ) : ℕ :=
  if 95 ≤ s then 35 else if 90 ≤ s then 30 else if 80 ≤ s then 25
  else if 70 ≤ s then 20 else 0

/-- Concurrent-stream band points (of max 25). -/
def streamsPoints (m : ℚ) : ℕ :=
  if 100 ≤ m then 25 else if 75 ≤ m then 20 else if 50 ≤ m then 15
  else if 25 ≤ m then 10 else 0

/-- Thermal band points, lower is better (of max 15). -/
def tempPoints (t : ℚ) : ℕ :=
  if t ≤ 75 then 15 else if t ≤ 80 then 12 else if t ≤ 85 then 8 else 0

/-- Letter band for a score percentage. -/
def gradeBand (pct : ℚ) : List Char :=
  if 90 ≤ pct then "A+ (Excellent)".data
  else if 80 ≤ pct then "A (Very Good)".data
  else if 70 ≤ pct then "B+ (Good)".data
  else if 60 ≤ pct then "B (Fair)".data
  else if 50 ≤ pct then "C (Needs Improvement)".data
  else "D (Poor)".data

/-- The grade printed by `_print_performance_grade`. -/
structure GradeResult where
  score : ℕ
  max_score : ℕ
  percentage : ℚ
  grade : List Char
deriving DecidableEq

/-- `ResultsAnalyzer._print_performance_grade`: each of the four sub-scores
is gated on the presence of its section key in the report dictionary
(`gpu_performance` for utilization, streams and thermal; `output_quality`
for success rate), reads its input with a `get(..., default)` default (`0`,
except `100` for the maximum temperature), and adds its cap to the running
maximum whenever the key is present; no grade is produced when the maximum
stayed `0`. -/
def performanceGrade (r : AnalysisReport) : Option GradeResult :=
  let s1 : ℕ := match r.gpu_performance with
    | some gp => utilPoints ((gp.gpu_utilization.map UtilSection.avg).getD 0)
    | none => 0
  let m1 : ℕ := match r.gpu_performance with
    | some _ => 25
    | none => 0
  let s2 : ℕ := match r.output_quality with
    | some oq => successPoints ((oq.nvenc1.success_rate + oq.nvenc2.success_rate) / 2)
    | none => 0
  let m2 : ℕ := match r.output_quality with
    | some _ => 35
    | none => 0
  let s3 : ℕ := match r.gpu_performance with
    | some gp => streamsPoints ((gp.concurrent_streams.map StreamSection.max_total).getD 0)
    | none => 0
  let m3 : ℕ := match r.gpu_performance with
    | some _ => 25
    | none => 0
  let s4 : ℕ := match r.gpu_performance with
    | some gp => tempPoints ((gp.thermal.map ThermalSection.max_temp).getD 100)
    | none => 0
  let m4 : ℕ := match r.gpu_performance with
    | some _ => 15
    | none => 0
  let score := s1 + s2 + s3 + s4
  let maxScore := m1 + m2 + m3 + m4
  if 0 < maxScore then
    let pct := (score : ℚ) / (maxScore : ℚ) * 100
    some ⟨score, maxScore, pct, gradeBand pct⟩
  else none

/-! ## Concrete inputs used by the example evaluations -/

/-- A query response whose GPU-utilization field is the driver's
not-applicable marker, all other fields numeric. -/
def naResp : GpuQueryResponse :=
  { v_timestamp := "20251012".data
  , v_name := "RTX 4090".data
  , v_memory_total := "100".data
  , v_memory_used := "50".data
  , v_memory_free := "50".data
  , v_util_gpu := "[N/A]".data
  , v_util_memory := "20".data
  , v_temperature := "60".data
  , v_power := "150.5".data
  , v_clock_gpu := "2000".data
  , v_clock_memory := "10000".data }

/-- The same response, except that the source actually reports zero
utilization. -/
def zeroResp : GpuQueryResponse :=
  { naResp with v_util_gpu := "0".data }

/-- The record `get_gpu_info` produces for `naResp`. -/
def gpuInfoNAExpected : GpuInfo :=
  { timestamp := "20251012".data
  , gpu_name := "RTX 4090".data
  , memory_total_mb := 100
  , memory_used_mb := 50
  , memory_free_mb := 50
  , gpu_utilization := 0
  , memory_utilization := 20
  , temperature_c := 60
  , power_draw_w := 301 / 2
  , gpu_clock_mhz := 2000
  , memory_clock_mhz := 10000
  , memory_percent := 50 }

/-- A relevant process with the lower pid. -/
def procA : FfmpegProcess := ⟨101, 3, 0, 0, 0⟩

/-- A relevant process with the higher pid. -/
def procB : FfmpegProcess := ⟨202, 5, 0, 0, 0⟩

/-- An engine output directory with three complete streams and one stream
whose playlist is empty, plus a stray non-stream entry. -/
def quality31Example : List StreamEntry :=
  [ ⟨"stream0".data, true, some 10, [10, 90]⟩
  , ⟨"stream1".data, true, some 5, [5]⟩
  , ⟨"notes".data, false, none, []⟩
  , ⟨"stream2".data, true, some 7, [7]⟩
  , ⟨"stream3".data, true, some 0, []⟩ ]

/-- A log text containing three `drop=` markers with maximum 11. -/
def dropExampleLog : List Char :=
  "frame=1 drop=3 fps=30 drop=11 speed=1.2x drop=7 end".data

/-- A log text containing no `drop=` marker. -/
def noDropLog : List Char := "frame=1 fps=30 speed=1.0x".data

/-! ## Helper lemmas -/

/-- Inserting a process preserves the total input-stream count. -/
theorem insertByPid_map_sum (p : FfmpegProcess) (l : List FfmpegProcess) :
    ((insertByPid p l).map FfmpegProcess.input_streams).sum
      = p.input_streams + (l.map FfmpegProcess.input_streams).sum := by
  induction l with
  | nil => simp [insertByPid]
  | cons q t ih =>
    by_cases h : p.pid ≤ q.pid
    · simp [insertByPid, h]
    · simp [insertByPid, h, ih]
      omega

/-- Sorting by pid preserves the total input-stream count. -/
theorem sortByPid_map_sum (l : List FfmpegProcess) :
    ((sortByPid l).map FfmpegProcess.input_streams).sum
      = (l.map FfmpegProcess.input_streams).sum := by
  induction l with
  | nil => rfl
  | cons p t ih => simp [sortByPid, insertByPid_map_sum, ih]

/-- Insertion never yields the empty list. -/
theorem insertByPid_ne_nil (p : FfmpegProcess) (l : List FfmpegProcess) :
    insertByPid p l ≠ [] := by
  cases l with
  | nil => simp [insertByPid]
  | cons q t =>
    simp only [insertByPid]
    split <;> simp

/-- The initial accumulator is below a `foldl Nat.max`. -/
theorem foldl_max_init_le (l : List ℕ) : ∀ a : ℕ, a ≤ l.foldl Nat.max a := by
  induction l with
  | nil => intro a; exact Nat.le_refl a
  | cons x t ih =>
    intro a
    exact le_trans (Nat.le_max_left a x) (ih (Nat.max a x))

/-- Every member of a list is below its `foldl Nat.max`. -/
theorem foldl_max_mem_le (l : List ℕ) : ∀ (a m : ℕ), m ∈ l → m ≤ l.foldl Nat.max a := by
  induction l with
  | nil => intro a m hm; cases hm
  | cons x t ih =>
    intro a m hm
    rcases List.mem_cons.mp hm with h | h
    · subst h
      exact le_trans (Nat.le_max_right a m) (foldl_max_init_le t (Nat.max a m))
    · exact ih (Nat.max a x) m h

/-- The first produced tick start is the loop's current start time. -/
theorem monitorTickStarts_head (i s : ℚ) (ws : List ℚ) :
    (monitorTickStarts i s ws)[0]? = some s := by
  cases ws <;> simp [monitorTickStarts]

/-! ## Claims -/

/-- Claim C1, counterexample: a hardware-counter response whose
GPU-utilization field is the driver's `[N/A]` marker is recorded by
`get_gpu_info` with `gpu_utilization = 0`, and the resulting Sample field is
identical to the one recorded when the source actually reports zero — the
claimed explicit "unavailable" value does not exist in the code. -/
theorem gpu_na_reading_equals_zero_reading :
    (get_gpu_info naResp).map GpuInfo.gpu_utilization = some 0 ∧
    get_gpu_info naResp = get_gpu_info zeroResp := by
  have h1 : get_gpu_info naResp = some gpuInfoNAExpected := by
    simp +decide [get_gpu_info, naResp, gpuInfoNAExpected, naFloat, naInt, naChars,
      parseInt, parseNat, parseFloatQ, parseFloatUnsigned, digitsToNat, digitVal,
      isDigitChar, List.splitOn]
    norm_num
  have h2 : get_gpu_info zeroResp = some gpuInfoNAExpected := by
    simp +decide [get_gpu_info, zeroResp, naResp, gpuInfoNAExpected, naFloat, naInt,
      naChars, parseInt, parseNat, parseFloatQ, parseFloatUnsigned, digitsToNat,
      digitVal, isDigitChar, List.splitOn]
    norm_num
  refine ⟨?_, h1.trans h2.symm⟩
  rw [h1]
  rfl

/-- Claim C1, amended: a guarded hardware-counter field reported as `[N/A]`
is recorded as the number `0` (indistinguishable from a true zero reading),
and a failed encoder-statistics query is likewise recorded as all zeros
rather than as an unavailable marker. -/
theorem na_guarded_fields_recorded_as_zero :
    (∀ (r : GpuQueryResponse) (g : GpuInfo), r.v_util_gpu = naChars →
      get_gpu_info r = some g → g.gpu_utilization = 0) ∧
    get_nvenc_encoder_stats none = ⟨0, 0, 0⟩ := by
  constructor
  · intro r g hna hg
    unfold get_gpu_info at hg
    split at hg
    · rename_i mt mu mf ug um tc pw cg cm hmt hmu hmf hug hum htc hpw hcg hcm
      rw [hna] at hug
      simp only [naFloat, if_pos rfl] at hug
      split at hg
      · exact absurd hg (by simp)
      · have hrec := Option.some.inj hg
        rw [← hrec]
        exact (Option.some.inj hug).symm
    · exact absurd hg (by simp)
  · rfl

/-- Claim C1, witness for the amended statement at a concrete response. -/
theorem na_guarded_fields_recorded_as_zero_w :
    naResp.v_util_gpu = naChars ∧
    get_gpu_info naResp = some gpuInfoNAExpected ∧
    gpuInfoNAExpected.gpu_utilization = 0 := by
  have h1 : get_gpu_info naResp = some gpuInfoNAExpected := by
    simp +decide [get_gpu_info, naResp, gpuInfoNAExpected, naFloat, naInt, naChars,
      parseInt, parseNat, parseFloatQ, parseFloatUnsigned, digitsToNat, digitVal,
      isDigitChar, List.splitOn]
    norm_num
  exact ⟨rfl, h1, na_guarded_fields_recorded_as_zero.1 naResp gpuInfoNAExpected rfl h1⟩

/-- Claim C2, counterexample: with every input family absent (no monitoring
CSV, no output directories, no logs) the report generator still populates
all section keys, so the grade computation adds every cap: it produces a
grade with `max_score = 100` instead of producing no grade. -/
theorem grade_with_all_inputs_absent :
    performanceGrade (generate_comprehensive_report 0 none none none none none)
      = some ⟨0, 100, 0, "D (Poor)".data⟩ := by
  norm_num [performanceGrade, generate_comprehensive_report, analyze_gpu_performance,
    analyze_output_quality, analyzeEngineDir, countStreams, utilPoints, successPoints,
    streamsPoints, tempPoints, gradeBand, analyze_ffmpeg_logs]

/-- Claim C2, amended: each sub-score is gated on the presence of its
section key in the report dictionary, and the generator always populates
the `gpu_performance` and `output_quality` keys (with empty or zero-valued
sections when the inputs are absent); hence all four caps are always added,
`max_score` is always `100`, a grade is always produced, and input families
that are absent contribute `0` to the score but their full cap to
`max_score`. -/
theorem grade_max_score_always_100 :
    (∀ (now : ℚ) (csv : Option CsvFrame) (o1 o2 : Option (List StreamEntry))
        (l1 l2 : Option LogFile), ∃ g : GradeResult,
      performanceGrade (generate_comprehensive_report now csv o1 o2 l1 l2) = some g ∧
      g.max_score = 100) ∧
    (∀ (now : ℚ) (l1 l2 : Option LogFile),
      performanceGrade (generate_comprehensive_report now none none none l1 l2)
        = some ⟨0, 100, 0, "D (Poor)".data⟩) := by
  constructor
  · intro now csv o1 o2 l1 l2
    exact ⟨_, rfl, rfl⟩
  · intro now l1 l2
    norm_num [performanceGrade, generate_comprehensive_report, analyze_gpu_performance,
      analyze_output_quality, analyzeEngineDir, countStreams, utilPoints, successPoints,
      streamsPoints, tempPoints, gradeBand]

/-- Claim C3: attribution of one tick's relevant-process list — the empty
list yields all zeros, a single process is fully assigned to NVENC1, and a
two-process list is assigned by ascending pid (engine 1 the lower pid,
engine 2 the higher) regardless of the order of the input list. -/
theorem attribution_small_cases :
    detect_nvenc_utilization [] = ⟨0, 0, 0⟩ ∧
    (∀ p : FfmpegProcess,
      detect_nvenc_utilization [p] = ⟨p.input_streams, 0, p.input_streams⟩) ∧
    (∀ p q : FfmpegProcess, p.pid < q.pid →
      detect_nvenc_utilization [p, q]
        = ⟨p.input_streams, q.input_streams, p.input_streams + q.input_streams⟩ ∧
      detect_nvenc_utilization [q, p]
        = ⟨p.input_streams, q.input_streams, p.input_streams + q.input_streams⟩) := by
  refine ⟨rfl, ?_, ?_⟩
  · intro p
    simp [detect_nvenc_utilization, sortByPid, insertByPid]
  · intro p q h
    constructor
    · simp [detect_nvenc_utilization, sortByPid, insertByPid, le_of_lt h]
    · simp [detect_nvenc_utilization, sortByPid, insertByPid, not_le.mpr h]

/-- Claim C3, witness: two concrete processes in both input orders. -/
theorem attribution_small_cases_w :
    procA.pid < procB.pid ∧
    detect_nvenc_utilization [procA, procB] = ⟨3, 5, 8⟩ ∧
    detect_nvenc_utilization [procB, procA] = ⟨3, 5, 8⟩ :=
  ⟨by decide,
   (attribution_small_cases.2.2 procA procB (by decide)).1,
   (attribution_small_cases.2.2 procA procB (by decide)).2⟩

/-- Claim C4: for every relevant-process list the attribution total equals
the sum of all input-stream counts, and the two named-engine loads never
sum to more than that total. -/
theorem attribution_total_and_bound :
    ∀ procs : List FfmpegProcess,
      (detect_nvenc_utilization procs).total_concurrent_streams
          = (procs.map FfmpegProcess.input_streams).sum ∧
      (detect_nvenc_utilization procs).nvenc1_estimated_load
            + (detect_nvenc_utilization procs).nvenc2_estimated_load
        ≤ (detect_nvenc_utilization procs).total_concurrent_streams := by
  intro procs
  cases procs with
  | nil => exact ⟨rfl, Nat.le_refl 0⟩
  | cons a t =>
    have hsum : ((sortByPid (a :: t)).map FfmpegProcess.input_streams).sum
        = ((a :: t).map FfmpegProcess.input_streams).sum := sortByPid_map_sum (a :: t)
    have hne : sortByPid (a :: t) ≠ [] := by
      simp only [sortByPid]
      exact insertByPid_ne_nil a (sortByPid t)
    rcases hx : sortByPid (a :: t) with _ | ⟨x, xs⟩
    · exact absurd hx hne
    · rcases xs with _ | ⟨y, ys⟩
      · rw [hx] at hsum
        constructor
        · simp only [detect_nvenc_utilization, hx]
          simpa using hsum
        · simp [detect_nvenc_utilization, hx]
      · rw [hx] at hsum
        constructor
        · simp only [detect_nvenc_utilization, hx]
          simpa using hsum
        · simp only [detect_nvenc_utilization, hx]
          simp only [List.map_cons, List.sum_cons]
          omega

/-- Claim C5, counterexample: running the report generator twice on the
identical persisted inputs but at two different wall-clock instants yields
different report content, because `test_timestamp` records the analysis
time — the persisted report is not byte-identical across reruns. -/
theorem report_not_time_invariant :
    generate_comprehensive_report 0 none none none none none
      ≠ generate_comprehensive_report 1 none none none none none := by
  intro h
  have h2 := congrArg AnalysisReport.test_timestamp h
  norm_num [generate_comprehensive_report] at h2

/-- Claim C5, amended: every analysis section of the report
(`gpu_performance`, `output_quality`, `ffmpeg_analysis`) is a pure function
of the persisted inputs and is identical across reruns; only the
`test_timestamp` stamp (and the timestamped report file name) varies with
the analysis time. -/
theorem report_sections_pure_in_inputs :
    ∀ (t1 t2 : ℚ) (csv : Option CsvFrame) (o1 o2 : Option (List StreamEntry))
      (l1 l2 : Option LogFile),
      (generate_comprehensive_report t1 csv o1 o2 l1 l2).gpu_performance
          = (generate_comprehensive_report t2 csv o1 o2 l1 l2).gpu_performance ∧
      (generate_comprehensive_report t1 csv o1 o2 l1 l2).output_quality
          = (generate_comprehensive_report t2 csv o1 o2 l1 l2).output_quality ∧
      (generate_comprehensive_report t1 csv o1 o2 l1 l2).ffmpeg_analysis
          = (generate_comprehensive_report t2 csv o1 o2 l1 l2).ffmpeg_analysis := by
  intro t1 t2 csv o1 o2 l1 l2
  exact ⟨rfl, rfl, rfl⟩

/-- Claim C6, counterexample: with interval 1 and a tick whose collection
work took 2, the monitoring loop as written starts the next tick at time 3
(it still sleeps the full interval), while the residual-sleep pacing
described by the claim would start it immediately at time 2. -/
theorem tick_pacing_full_sleep_cex :
    monitorTickStarts 1 0 [2] = [0, 3] ∧
    residualTickStarts 1 0 [2] = [0, 2] ∧
    monitorTickStarts 1 0 [2] ≠ residualTickStarts 1 0 [2] := by
  have h1 : monitorTickStarts 1 0 [2] = [0, 3] := by
    norm_num [monitorTickStarts]
  have h2 : residualTickStarts 1 0 [2] = [0, 2] := by
    norm_num [residualTickStarts, max_def]
  refine ⟨h1, h2, ?_⟩
  rw [h1, h2]
  intro h
  have h3 := congrArg (fun l => l[1]?) h
  norm_num at h3

/-- Claim C6, amended: after each tick's collection work the loop sleeps
the full interval unconditionally, so consecutive tick starts are separated
by the collection time plus the interval — the loop targets `interval`
between tick end and next tick start, not between tick starts, and there is
no residual-time computation. -/
theorem tick_gap_is_work_plus_interval :
    ∀ (i s : ℚ) (ws : List ℚ) (n : ℕ) (w tn : ℚ),
      ws[n]? = some w →
      (monitorTickStarts i s ws)[n]? = some tn →
      (monitorTickStarts i s ws)[n + 1]? = some (tn + w + i) := by
  intro i s ws
  induction ws generalizing s with
  | nil =>
    intro n w tn hw ht
    simp at hw
  | cons w0 wt ih =>
    intro n w tn hw ht
    simp only [monitorTickStarts] at ht ⊢
    cases n with
    | zero =>
      simp only [List.getElem?_cons_zero] at hw ht
      simp only [List.getElem?_cons_succ]
      rw [← Option.some.inj hw, ← Option.some.inj ht]
      exact monitorTickStarts_head i (s + w0 + i) wt
    | succ m =>
      simp only [List.getElem?_cons_succ] at hw ht ⊢
      exact ih (s + w0 + i) m w tn hw ht

/-- Claim C6, witness for the amended statement: interval 1, first tick at
time 0 with work 2, so the second tick starts at 3. -/
theorem tick_gap_is_work_plus_interval_w :
    ([(2 : ℚ), 3][0]? = some 2) ∧
    ((monitorTickStarts 1 0 [2, 3])[0]? = some 0) ∧
    (monitorTickStarts 1 0 [2, 3])[1]? = some 3 := by
  have h1 : ([(2 : ℚ), 3])[0]? = some 2 := rfl
  have h2 : (monitorTickStarts 1 0 [2, 3])[0]? = some 0 := monitorTickStarts_head 1 0 [2, 3]
  have h3 := tick_gap_is_work_plus_interval 1 0 [2, 3] 0 2 0 h1 h2
  norm_num at h3
  exact ⟨h1, h2, h3⟩

/-- Claim C7: each engine's output success rate equals
`successful/(successful+failed)` as a percentage, is `0` (not an error)
when the engine produced no streams, and is `75.0` for three successful and
one failed stream. -/
theorem success_rate_formula :
    (∀ d : Option (List StreamEntry),
      (analyzeEngineDir d).success_rate =
        if 0 < (analyzeEngineDir d).successful_streams + (analyzeEngineDir d).failed_streams then
          ((analyzeEngineDir d).successful_streams : ℚ)
              / (((analyzeEngineDir d).successful_streams
                    + (analyzeEngineDir d).failed_streams : ℕ) : ℚ) * 100
        else 0) ∧
    (analyzeEngineDir none).success_rate = 0 ∧
    (analyzeEngineDir (some quality31Example)).successful_streams = 3 ∧
    (analyzeEngineDir (some quality31Example)).failed_streams = 1 ∧
    (analyzeEngineDir (some quality31Example)).success_rate = 75 := by
  refine ⟨fun d => rfl, by decide, by decide, by decide, ?_⟩
  simp +decide [analyzeEngineDir, countStreams, streamAccum, quality31Example]
  norm_num

/-- Claim C8: dropped-frame extraction returns the maximum `drop=` marker
(11 on a log with markers 3, 11, 7 — neither their sum nor the last), `0`
on a log without the marker, and the result bounds every matched value. -/
theorem dropped_frames_max_semantics :
    count_dropped_frames dropExampleLog = 11 ∧
    count_dropped_frames noDropLog = 0 ∧
    (∀ l : List Char, dropMatches l = [] → count_dropped_frames l = 0) ∧
    (∀ (l : List Char) (m : ℕ), m ∈ dropMatches l → m ≤ count_dropped_frames l) := by
  refine ⟨by decide, by decide, ?_, ?_⟩
  · intro l h
    simp [count_dropped_frames, h]
  · intro l m hm
    unfold count_dropped_frames
    cases hd : dropMatches l with
    | nil => rw [hd] at hm; cases hm
    | cons a t =>
      rw [hd] at hm
      rcases List.mem_cons.mp hm with h | h
      · subst h
        exact foldl_max_init_le t m
      · exact foldl_max_mem_le t a m h

/-- Claim C8, witness at the concrete example log. -/
theorem dropped_frames_max_semantics_w :
    (dropMatches noDropLog = [] ∧ count_dropped_frames noDropLog = 0) ∧
    ((3 : ℕ) ∈ dropMatches dropExampleLog ∧ 3 ≤ count_dropped_frames dropExampleLog) :=
  ⟨⟨by decide, dropped_frames_max_semantics.2.2.1 noDropLog (by decide)⟩,
   ⟨by decide, dropped_frames_max_semantics.2.2.2 dropExampleLog 3 (by decide)⟩⟩

/-- Claim C9: for an empty run the structured JSON form is still written
(as the empty array) but the CSV writer and the analysis writer both return
without writing anything. -/
theorem empty_run_persistence :
    save_data_csv [] = none ∧
    save_data_json [] = some [] ∧
    analyze_concurrent_performance [] = none ∧
    save_analysis [] = none :=
  ⟨rfl, rfl, rfl, rfl⟩

/-- Claim C10: the output-artifact scan is total — every directory state
yields a statistics record — and whenever the record's average field is
computed it is the guarded division, yielding `0` when the playlist count
is `0`. -/
theorem hls_stats_total_and_guarded_avg :
    (∀ d : Option (List HlsEntry), ∃ s : HlsStats, get_hls_output_stats d = s) ∧
    (∀ files : List HlsEntry,
      (get_hls_output_stats (some files)).avg_segments_per_playlist =
        some (if 0 < (get_hls_output_stats (some files)).total_playlists then
                ((get_hls_output_stats (some files)).total_segments : ℚ)
                  / ((get_hls_output_stats (some files)).total_playlists : ℚ)
              else 0)) :=
  ⟨fun d => ⟨get_hls_output_stats d, rfl⟩, fun _ => rfl⟩
